import Mathlib

-- Shallow embedding of the Easy Apply engine of this repository
-- (src/aihawk_easy_applier.py and src/llm/llm_manager.py).
-- Browser interactions are modelled by environments that record, for each
-- collaborator call the code makes, the outcome that call would produce.

-- ### Errors raised by the code (Python exceptions, by raise site)

inductive AppErr where
  | redirectLoop                         -- check_for_premium_redirect, line 102
  | noEasyApplyButton                    -- _find_easy_apply_button, line 243
  | noSuchElement (locator : String)     -- selenium NoSuchElementException
  | timeout (what : String)              -- selenium TimeoutException
  | validationFailed (texts : List String) -- _check_for_errors, line 586
  | jobDescriptionNotFound               -- _get_job_description, line 281
  | webDriver (msg : String)             -- selenium WebDriverException
  | valueError (msg : String)            -- upload validation ValueError
  | httpStatus (code : Nat)              -- non-429 HTTPStatusError, line 417
  | generationFailed                     -- resume generation failure, line 424
  | indexError                           -- random.choice on an empty list
  | wrappedApplyFailure (inner : AppErr) -- job_apply re-raise wrapper, line 171
  | wrappedStoreFailure (inner : AppErr) -- answers.json load/save wrapper
deriving DecidableEq

-- ### Text sanitization (_sanitize_text, lines 638-644)

-- model of Python str.lower() restricted to ASCII letters
def pyLower (c : Char) : Char :=
  match c with
  | 'A' => 'a' | 'B' => 'b' | 'C' => 'c' | 'D' => 'd' | 'E' => 'e' | 'F' => 'f'
  | 'G' => 'g' | 'H' => 'h' | 'I' => 'i' | 'J' => 'j' | 'K' => 'k' | 'L' => 'l'
  | 'M' => 'm' | 'N' => 'n' | 'O' => 'o' | 'P' => 'p' | 'Q' => 'q' | 'R' => 'r'
  | 'S' => 's' | 'T' => 't' | 'U' => 'u' | 'V' => 'v' | 'W' => 'w' | 'X' => 'x'
  | 'Y' => 'y' | 'Z' => 'z'
  | other => other

def lowerString (s : String) : String := String.mk (s.data.map pyLower)

-- characters stripped by Python str.strip() with no argument: the full
-- whitespace class of Python 3 str (ASCII controls 9-13 and 28-31, space,
-- NEL, NBSP, Ogham space mark, the U+2000-200A spaces, line and paragraph
-- separators, narrow NBSP, medium mathematical space, ideographic space)
def isPySpace (c : Char) : Bool :=
  c == ' ' || c == '\t' || c == '\n' || c == '\r' || c.toNat == 11 || c.toNat == 12 ||
  c.toNat == 28 || c.toNat == 29 || c.toNat == 30 || c.toNat == 31 ||
  c.toNat == 133 || c.toNat == 160 || c.toNat == 0x1680 ||
  (0x2000 ≤ c.toNat && c.toNat ≤ 0x200A) ||
  c.toNat == 0x2028 || c.toNat == 0x2029 ||
  c.toNat == 0x202F || c.toNat == 0x205F || c.toNat == 0x3000

-- the character class of re.sub(r'[\x00-\x1F\x7F]', '', _)
def isCtrlChar (c : Char) : Bool := c.toNat ≤ 31 || c.toNat == 127

def pyStrip (l : List Char) : List Char :=
  ((l.dropWhile fun c => isPySpace c).reverse.dropWhile fun c => isPySpace c).reverse

def rstripComma (l : List Char) : List Char :=
  (l.reverse.dropWhile fun c => c == ',').reverse

-- text.lower().strip().replace(quote, "").replace(backslash, ""), then the
-- control-character re.sub, then .replace(newline, " ").replace(cr, "").rstrip(comma)
def sanitizeList (text : List Char) : List Char :=
  rstripComma
    (List.filter (fun c => !(c == '\r'))
      (List.map (fun c => if c == '\n' then ' ' else c)
        (List.filter (fun c => !(isCtrlChar c))
          (List.filter (fun c => !(c == '\\'))
            (List.filter (fun c => !(c == '"'))
              (pyStrip (List.map pyLower text)))))))

def sanitize_text (text : String) : String := String.mk (sanitizeList text.data)

-- ### Answer store (answers.json)

-- one record of the JSON answer log; the Python dict keys are
-- question / answer / type
structure QuestionRecord where
  question : String
  answer : String
  qtype : String
deriving DecidableEq

-- the parse outcome of the raw content of answers.json
inductive StoreContent where
  | missing                              -- open() raises FileNotFoundError
  | malformed                            -- json.load raises JSONDecodeError
  | jsonNonList                          -- valid JSON that is not a list
  | jsonList (records : List QuestionRecord) -- valid JSON list
deriving DecidableEq

-- _load_questions_from_json, lines 59-83
def load_questions_from_json (content : StoreContent) : Except AppErr (List QuestionRecord) :=
  match content with
  | .missing => .ok []
  | .malformed => .ok []
  | .jsonNonList =>
      .error (.wrappedStoreFailure
        (.valueError "JSON file format is incorrect. Expected a list of questions."))
  | .jsonList records => .ok records

def sanitize_record (question_data : QuestionRecord) : QuestionRecord :=
  { question_data with question := sanitize_text question_data.question }

-- _save_questions_to_json, lines 605-636: sanitize the question key, re-read
-- the file, append the record, write back the grown list
def save_questions_to_json (content : StoreContent) (question_data : QuestionRecord) :
    Except AppErr (List QuestionRecord) :=
  let qd := sanitize_record question_data
  match content with
  | .missing => .ok ([] ++ [qd])
  | .malformed => .ok ([] ++ [qd])
  | .jsonNonList =>
      .error (.wrappedStoreFailure
        (.valueError "JSON file format is incorrect. Expected a list of questions."))
  | .jsonList data => .ok (data ++ [qd])

-- ### Substring test (Python `needle in haystack`)

def containsSub (needle hay : String) : Bool :=
  (List.range (hay.data.length + 1)).any fun i => needle.data.isPrefixOf (hay.data.drop i)

def isPremium (url : String) : Bool := containsSub "linkedin.com/premium" url

-- ### check_for_premium_redirect, lines 85-102

-- urls k is driver.current_url after the k-th driver.get(job.link); urls 0 is
-- the url read before the loop.  The while loop re-navigates while the url
-- matches the premium pattern and attempts < max_attempts.
def premiumCheckLoop (urls : Nat → String) (attempts : Nat) : Nat → Nat
  | 0 => attempts
  | fuel + 1 =>
      if isPremium (urls attempts) then premiumCheckLoop urls (attempts + 1) fuel
      else attempts

-- returns the number of re-navigation attempts used, or raises after the cap
def check_for_premium_redirect (urls : Nat → String) (max_attempts : Nat) :
    Except AppErr Nat :=
  let final := premiumCheckLoop urls 0 max_attempts
  if isPremium (urls final) then .error .redirectLoop else .ok final

-- ### _find_easy_apply_button, lines 173-243

structure SearchMethod where
  description : String
  find_elements : Bool
  xpath : String

def search_methods : List SearchMethod := [
  { description := "XPath con jobs-apply-button y texto Easy Apply",
    find_elements := true,
    xpath := "//button[contains(@class, \"jobs-apply-button\") and .//span[contains(@class, \"artdeco-button__text\") and normalize-space(text()) = \"Easy Apply\"]]" },
  { description := "aria-label containing Easy Apply to",
    find_elements := false,
    xpath := "//button[contains(@aria-label, \"Easy Apply to\")]" },
  { description := "button text fallback",
    find_elements := false,
    xpath := "//button[contains(text(), \"Easy Apply\") or contains(text(), \"Apply now\") or contains(text(), \"Solicitud sencilla\")]" }]

structure FoundButton where
  round : Nat
  methodIdx : Nat
  buttonIdx : Nat
deriving DecidableEq

-- per-attempt page behaviour observed by the locator
structure FindButtonEnv where
  -- url streams seen by the four check_for_premium_redirect calls inside the
  -- retry loop (two calls per round)
  checkUrls : Nat → Nat → String
  -- round → clickability of each candidate returned by the find_elements method
  multiButtons : Nat → List Bool
  -- round → method index → whether the presence/visibility/clickability waits succeed
  singleSuccess : Nat → Nat → Bool

def tryMethod (env : FindButtonEnv) (round idx : Nat) (m : SearchMethod) :
    Option FoundButton :=
  if m.find_elements then
    -- enumerate candidate buttons, return the first that becomes clickable;
    -- per-button wait failures are caught and the scan continues
    match (env.multiButtons round).findIdx? (fun b => b) with
    | some i => some ⟨round, idx, i⟩
    | none => none
  else
    -- single-element wait chain; a TimeoutException moves to the next method
    if env.singleSuccess round idx then some ⟨round, idx, 0⟩ else none

def tryMethodList (env : FindButtonEnv) (round : Nat) :
    List (Nat × SearchMethod) → Option FoundButton
  | [] => none
  | (i, m) :: rest =>
      match tryMethod env round i m with
      | some b => some b
      | none => tryMethodList env round rest

def tryMethodsInRound (env : FindButtonEnv) (round : Nat) : Option FoundButton :=
  tryMethodList env round search_methods.enum

structure FindResult where
  result : Except AppErr FoundButton
  reloads : Nat
  rounds : Nat

-- while attempt < 2: redirect check, scroll pass, try every method in order,
-- redirect check, then refresh once (only when attempt == 0) and loop again
def findButtonLoop (env : FindButtonEnv) (attempt reloads rounds : Nat) :
    Nat → FindResult
  | 0 => ⟨.error .noEasyApplyButton, reloads, rounds⟩
  | fuel + 1 =>
      if attempt < 2 then
        match check_for_premium_redirect (env.checkUrls (2 * attempt)) 3 with
        | .error e => ⟨.error e, reloads, rounds⟩
        | .ok _ =>
            -- _scroll_page runs here (no observable outcome modelled)
            match tryMethodsInRound env attempt with
            | some b => ⟨.ok b, reloads, rounds + 1⟩
            | none =>
                match check_for_premium_redirect (env.checkUrls (2 * attempt + 1)) 3 with
                | .error e => ⟨.error e, reloads, rounds + 1⟩
                | .ok _ =>
                    findButtonLoop env (attempt + 1)
                      (if attempt == 0 then reloads + 1 else reloads)
                      (rounds + 1) fuel
      else ⟨.error .noEasyApplyButton, reloads, rounds⟩

def find_easy_apply_button (env : FindButtonEnv) : FindResult :=
  findButtonLoop env 0 0 0 2

-- ### _get_job_recruiter, lines 287-308

structure RecruiterPage where
  -- none: the wait for the Meet the hiring team header times out;
  -- some hrefs: the href of every recruiter anchor under the section
  hiringSection : Option (List String)

def find_recruiter_elements (page : RecruiterPage) : Except AppErr (List String) :=
  match page.hiringSection with
  | none => .error (.timeout "Meet the hiring team")
  | some links => .ok links

def get_job_recruiter (page : RecruiterPage) : String :=
  match find_recruiter_elements page with
  | .error _ => ""       -- except Exception: log a warning and return ""
  | .ok recruiter_elements =>
      match recruiter_elements with
      | recruiter_link :: _ => recruiter_link
      | [] => ""

-- ### Upload validation (_create_and_upload_resume, lines 385-444; the
-- cover-letter twin at lines 503-513 repeats the same checks)

def max_file_size : Nat := 2 * 1024 * 1024

def allowed_extensions : List String := [".pdf", ".doc", ".docx"]

def validate_artifact (file_size : Nat) (file_extension : String) : Except AppErr Unit :=
  if file_size > max_file_size then
    .error (.valueError "Resume file size exceeds the maximum limit of 2 MB.")
  else if !(allowed_extensions.contains (lowerString file_extension)) then
    .error (.valueError "Resume file format is not allowed. Only PDF, DOC, DOCX supported.")
  else .ok ()

-- one iteration of the while True generation loop
inductive GenOutcome where
  | rateLimited                     -- 429 (or RateLimitError): wait and retry
  | httpFailed (code : Nat)         -- other HTTPStatusError: raise
  | genFailed                       -- other generation exception: raise
  | generated (size : Nat) (ext : String) -- a file was produced and saved
deriving DecidableEq

-- none models a run whose generation retries never end within the recorded
-- outcomes; after a successful generation the file is validated exactly once
def create_and_upload_resume (gens : List GenOutcome) :
    Option (Except AppErr (Nat × String)) :=
  match gens with
  | [] => none
  | g :: rest =>
      match g with
      | .rateLimited => create_and_upload_resume rest
      | .httpFailed code => some (.error (.httpStatus code))
      | .genFailed => some (.error .generationFailed)
      | .generated size ext =>
          match validate_artifact size ext with
          | .error e => some (.error e)
          | .ok () => some (.ok (size, ext))

-- ### GPTAnswerer.answer_question_from_options (llm_manager.py, lines 29-76)

structure LLMEnv where
  llm_model_type : String
  llm_api_url : String
  -- outcome of the requests.post / raise_for_status / json() sequence:
  -- error: the request raised; ok ans: the parsed answer field (none when absent)
  response : Except AppErr (Option String)
  -- randomness oracle consumed by random.choice
  randIdx : Nat

def pyRandomChoice (idx : Nat) (options : List String) : Except AppErr String :=
  match options with
  | [] => .error .indexError
  | x :: xs => .ok ((x :: xs).get ⟨idx % (xs.length + 1), Nat.mod_lt idx (Nat.succ_pos xs.length)⟩)

def answer_question_from_options (env : LLMEnv) (question_text : String)
    (options : List String) : Except AppErr String :=
  if lowerString env.llm_model_type == "gemini" then
    if env.llm_api_url == "" then
      pyRandomChoice env.randIdx options
    else
      match env.response with
      | .error _ => pyRandomChoice env.randIdx options
      | .ok ans =>
          let gemini_answer := ans.getD ""
          if options.contains gemini_answer then .ok gemini_answer
          else pyRandomChoice env.randIdx options
  else
    pyRandomChoice env.randIdx options

-- ### The form-filling loop (_fill_application_form / fill_up /
-- _next_or_submit / _check_for_errors / _unfollow_company, lines 310-586)

-- one iteration of the wizard as the page presents it
structure StepEnv where
  -- outcome of processing the form elements of this step (uploads included);
  -- fill_up wraps the whole scan in try/except and only logs a failure
  fillRaw : Except AppErr Unit
  -- text of the artdeco-button--primary control; none models
  -- NoSuchElementException from find_element
  buttonText : Option String
  -- the best-effort unfollow-company click (failure swallowed)
  unfollow : Except AppErr Unit
  -- texts of the artdeco-inline-feedback--error indicators seen after Next
  errorTexts : List String

-- fill_up, lines 321-335: every exception is caught and only logged
def fill_up (st : StepEnv) : Unit :=
  match st.fillRaw with
  | _ => ()

-- _check_for_errors, lines 576-586
def check_for_errors (texts : List String) : Except AppErr Unit :=
  match texts with
  | [] => .ok ()
  | ts => .error (.validationFailed ts)

-- _next_or_submit, lines 540-560: true means the application was submitted
def next_or_submit (st : StepEnv) : Except AppErr Bool :=
  match st.buttonText with
  | none => .error (.noSuchElement "artdeco-button--primary")
  | some t =>
      let button_text := lowerString t
      if containsSub "submit application" button_text ||
          containsSub "enviar solicitud" button_text then
        let _ := match st.unfollow with | _ => () -- _unfollow_company swallows failure
        .ok true
      else
        match check_for_errors st.errorTexts with
        | .error e => .error e
        | .ok () => .ok false

-- _fill_application_form, lines 310-319; none models a wizard that never
-- reaches Submit within the recorded steps (the while True keeps looping)
def fill_application_form (steps : List StepEnv) : Option (Except AppErr Unit) :=
  match steps with
  | [] => none
  | st :: rest =>
      let _ := fill_up st
      match next_or_submit st with
      | .error e => some (.error e)
      | .ok true => some (.ok ())
      | .ok false => fill_application_form rest

-- ### _discard_application, lines 588-603

structure DiscardEnv where
  dismissClick : Except AppErr Unit          -- the modal dismiss click
  confirmButtons : List (Except AppErr Unit) -- confirm-dialog buttons, click outcomes

-- the whole body sits in try/except: every secondary failure is swallowed
def discard_application (d : DiscardEnv) : Unit :=
  match d.dismissClick with
  | .error _ => ()
  | .ok () =>
      match d.confirmButtons with
      | [] => ()
      | b :: _ => match b with | _ => ()

-- ### job_apply / apply_to_job, lines 104-171

structure JobApplyEnv where
  navigate : Except AppErr Unit       -- driver.get(job.link), line 124
  -- url streams of the three direct redirect checks (lines 131, 137, 142)
  redirectUrls : Nat → Nat → String
  blur : Except AppErr Unit           -- the activeElement.blur() script, line 135
  findEnv : FindButtonEnv             -- _find_easy_apply_button behaviour
  jobDescription : Except AppErr String -- _get_job_description outcome
  recruiterPage : RecruiterPage       -- _get_job_recruiter input
  click : Except AppErr Unit          -- the ActionChains click on the trigger
  steps : List StepEnv                -- the wizard contents per iteration
  discardEnv : DiscardEnv             -- rollback behaviour

-- the body of the try block of job_apply, lines 133-163
def job_apply_attempt (env : JobApplyEnv) : Option (Except AppErr Unit) :=
  match env.blur with
  | .error e => some (.error e)
  | .ok () =>
  match check_for_premium_redirect (env.redirectUrls 1) 3 with
  | .error e => some (.error e)
  | .ok _ =>
  match (find_easy_apply_button env.findEnv).result with
  | .error e => some (.error e)
  | .ok _button =>
  match check_for_premium_redirect (env.redirectUrls 2) 3 with
  | .error e => some (.error e)
  | .ok _ =>
  match env.jobDescription with
  | .error e => some (.error e)
  | .ok _description =>
  let _recruiter_link := get_job_recruiter env.recruiterPage
  match env.click with
  | .error e => some (.error e)
  | .ok () => fill_application_form env.steps

-- job_apply, lines 116-171; the Nat records how many times
-- _discard_application ran before the outcome was returned
def job_apply (env : JobApplyEnv) : Option (Except AppErr Unit × Nat) :=
  match env.navigate with
  | .error e => some (.error e, 0)    -- raised before the try block: no rollback
  | .ok () =>
  match check_for_premium_redirect (env.redirectUrls 0) 3 with
  | .error e => some (.error e, 0)    -- line 131 check, outside the try block
  | .ok _ =>
  match job_apply_attempt env with
  | none => none
  | some (.ok ()) => some (.ok (), 0)
  | some (.error e) =>
      let _ := discard_application env.discardEnv
      some (.error (.wrappedApplyFailure e), 1)

-- apply_to_job, lines 104-114: logs and re-raises the same exception
def apply_to_job (env : JobApplyEnv) : Option (Except AppErr Unit × Nat) :=
  job_apply env

-- the two terminal shapes an attempt can take: a clean Applied return with no
-- rollback, or a raised exception with at most one rollback invocation
def terminal_outcome (r : Except AppErr Unit × Nat) : Prop :=
  (r.1 = .ok () ∧ r.2 = 0) ∨ ((∃ e, r.1 = .error e) ∧ r.2 ≤ 1)

def resultInOptions (r : Except AppErr String) (options : List String) : Prop :=
  match r with
  | .ok a => a ∈ options
  | .error _ => False

-- ### Concrete page environments used by witnesses and counterexamples

def nonPremiumUrl : String := "https://www.linkedin.com/jobs/view/12"

def premiumUrl : String := "https://www.linkedin.com/premium/products/"

def okFindEnv : FindButtonEnv :=
  ⟨fun _ _ => nonPremiumUrl, fun _ => [true], fun _ _ => false⟩

def noFindEnv : FindButtonEnv :=
  ⟨fun _ _ => nonPremiumUrl, fun _ => [], fun _ _ => false⟩

def submitStep : StepEnv := ⟨.ok (), some "Submit application", .ok (), []⟩

def okEnv : JobApplyEnv :=
  ⟨.ok (), fun _ _ => nonPremiumUrl, .ok (), okFindEnv, .ok "desc", ⟨some []⟩,
    .ok (), [submitStep], ⟨.ok (), []⟩⟩

def noTriggerEnv : JobApplyEnv := { okEnv with findEnv := noFindEnv }

def premiumStartEnv : JobApplyEnv := { okEnv with redirectUrls := fun _ _ => premiumUrl }

-- ### Helper lemmas

set_option maxHeartbeats 1000000 in
theorem pyLower_idem (c : Char) : pyLower (pyLower c) = pyLower c := by
  unfold pyLower
  split
  all_goals first
    | rfl
    | (rename_i heq
       split at heq <;> simp_all)

theorem mem_of_dropWhile {α} {p : α → Bool} {l : List α} {c : α}
    (h : c ∈ l.dropWhile p) : c ∈ l :=
  (List.dropWhile_sublist p).subset h

theorem dropWhile_dropWhile {α} (p : α → Bool) (l : List α) :
    (l.dropWhile p).dropWhile p = l.dropWhile p := by
  induction l with
  | nil => rfl
  | cons a t ih =>
    by_cases hp : p a
    · simp [List.dropWhile_cons, hp, ih]
    · simp [List.dropWhile_cons, hp]

theorem rstripComma_idem (l : List Char) : rstripComma (rstripComma l) = rstripComma l := by
  unfold rstripComma
  rw [List.reverse_reverse, dropWhile_dropWhile]

theorem mem_of_rstrip {l : List Char} {c : Char} (h : c ∈ rstripComma l) : c ∈ l := by
  unfold rstripComma at h
  exact List.mem_reverse.mp (mem_of_dropWhile (List.mem_reverse.mp h))

theorem mem_of_pyStrip {l : List Char} {c : Char} (h : c ∈ pyStrip l) : c ∈ l := by
  unfold pyStrip at h
  exact mem_of_dropWhile (List.mem_reverse.mp (mem_of_dropWhile (List.mem_reverse.mp h)))

theorem map_eq_self_of_mem {α} {f : α → α} {l : List α} (h : ∀ a ∈ l, f a = a) :
    l.map f = l := by
  induction l with
  | nil => rfl
  | cons a t ih =>
    rw [List.map_cons, h a (by simp), ih fun b hb => h b (by simp [hb])]

theorem mem_sanitizeList {l : List Char} {c : Char} (hc : c ∈ sanitizeList l) :
    pyLower c = c ∧ (c == '"') = false ∧ (c == '\\') = false ∧ isCtrlChar c = false := by
  unfold sanitizeList at hc
  have h6 := mem_of_rstrip hc
  rw [List.mem_filter] at h6
  obtain ⟨h5, hcr⟩ := h6
  rw [List.mem_map] at h5
  obtain ⟨d, hd4, hdc⟩ := h5
  rw [List.mem_filter] at hd4
  obtain ⟨hd3, hdctrl⟩ := hd4
  rw [List.mem_filter] at hd3
  obtain ⟨hd2, hdbs⟩ := hd3
  rw [List.mem_filter] at hd2
  obtain ⟨hd1, hdq⟩ := hd2
  have hdmap := mem_of_pyStrip hd1
  rw [List.mem_map] at hdmap
  obtain ⟨e, _, hde⟩ := hdmap
  have hdfix : pyLower d = d := by rw [← hde]; exact pyLower_idem e
  by_cases hnl : d == '\n'
  · have hsp : c = ' ' := by rw [← hdc]; simp [hnl]
    subst hsp
    exact ⟨rfl, by decide, by decide, by decide⟩
  · have hcd : c = d := by rw [← hdc]; simp [hnl]
    subst hcd
    exact ⟨hdfix, by simpa using hdq, by simpa using hdbs, by simpa using hdctrl⟩

theorem sanitizeList_idem {l : List Char} (h : pyStrip (sanitizeList l) = sanitizeList l) :
    sanitizeList (sanitizeList l) = sanitizeList l := by
  set t := sanitizeList l with ht
  have hmem : ∀ c ∈ t, pyLower c = c ∧ (c == '"') = false ∧ (c == '\\') = false ∧
      isCtrlChar c = false := fun c hc => mem_sanitizeList hc
  have hmap : List.map pyLower t = t := map_eq_self_of_mem fun c hc => (hmem c hc).1
  have hq : List.filter (fun c => !(c == '"')) t = t :=
    List.filter_eq_self.mpr fun c hc => by simp [(hmem c hc).2.1]
  have hbs : List.filter (fun c => !(c == '\\')) t = t :=
    List.filter_eq_self.mpr fun c hc => by simp [(hmem c hc).2.2.1]
  have hctrl : List.filter (fun c => !(isCtrlChar c)) t = t :=
    List.filter_eq_self.mpr fun c hc => by simp [(hmem c hc).2.2.2]
  have hnl : List.map (fun c => if c == '\n' then ' ' else c) t = t :=
    map_eq_self_of_mem fun c hc => by
      have hcc := (hmem c hc).2.2.2
      by_cases h1 : c == '\n'
      · exfalso
        have : c = '\n' := by simpa using h1
        subst this
        simp [isCtrlChar] at hcc
      · simp [h1]
  have hcr : List.filter (fun c => !(c == '\r')) t = t :=
    List.filter_eq_self.mpr fun c hc => by
      have hcc := (hmem c hc).2.2.2
      by_cases h1 : c == '\r'
      · exfalso
        have : c = '\r' := by simpa using h1
        subst this
        simp [isCtrlChar] at hcc
      · simp [h1]
  have hrst : rstripComma t = t := by
    rw [ht]
    unfold sanitizeList
    exact rstripComma_idem _
  show sanitizeList t = t
  unfold sanitizeList
  rw [hmap, h, hq, hbs, hctrl, hnl, hcr, hrst]

-- ### Claim theorems

-- concrete records for the answer-store claims
def storedQ : QuestionRecord := ⟨"are you authorized to work", "yes", "radio"⟩

def incomingQ : QuestionRecord := ⟨"Are you authorized to work", "yes", "radio"⟩

/-- C3 counterexample: saving an answer whose normalized question already has an
entry in the store does not skip the append; the store grows to two records
with the same normalized question key. -/
theorem save_appends_duplicate :
    save_questions_to_json (.jsonList [storedQ]) incomingQ = .ok [storedQ, storedQ] ∧
    [storedQ, storedQ] ≠ [storedQ] := by
  exact ⟨rfl, by decide⟩

/-- C3 (amended): a newly produced answer is always appended, keyed by the
normalized question text; no check against existing entries is made, so an
equivalent normalized entry results in a duplicate record. -/
theorem save_appends_unconditionally :
    ∀ (data : List QuestionRecord) (qd : QuestionRecord),
      save_questions_to_json (.jsonList data) qd = .ok (data ++ [sanitize_record qd]) :=
  fun _ _ => rfl

/-- C4 counterexample: file content that is valid JSON but not a list (such as
an object) makes the loader raise a wrapped error instead of returning a
list. -/
theorem loader_nonlist_raises :
    load_questions_from_json .jsonNonList =
      .error (.wrappedStoreFailure
        (.valueError "JSON file format is incorrect. Expected a list of questions.")) ∧
    ∀ l, load_questions_from_json .jsonNonList ≠ .ok l := by
  refine ⟨rfl, fun l h => ?_⟩
  simp [load_questions_from_json] at h

/-- C4 (amended): a missing file or content that fails JSON parsing yields an
empty list, and a well-formed list is returned as is; but valid JSON of the
wrong shape (not a list) raises a wrapped error out of the loader. -/
theorem loader_parse_failure_yields_empty :
    load_questions_from_json .missing = .ok [] ∧
    load_questions_from_json .malformed = .ok [] ∧
    (∀ l, load_questions_from_json (.jsonList l) = .ok l) ∧
    load_questions_from_json .jsonNonList =
      .error (.wrappedStoreFailure
        (.valueError "JSON file format is incorrect. Expected a list of questions.")) :=
  ⟨rfl, rfl, fun _ => rfl, rfl⟩

/-- C5 counterexample: sanitization is not idempotent; stripping trailing
commas can expose trailing whitespace that only a second pass removes. -/
theorem sanitize_not_idempotent :
    sanitize_text (sanitize_text "a ,") ≠ sanitize_text "a ," := by decide

/-- C5 (amended): sanitization is idempotent on every input whose sanitized
form carries no leading or trailing whitespace; in general a second pass can
differ, because rstrip of commas may expose whitespace at the end. -/
theorem sanitize_idem_of_stripped :
    ∀ s : String, pyStrip (sanitize_text s).data = (sanitize_text s).data →
      sanitize_text (sanitize_text s) = sanitize_text s := by
  intro s h
  show String.mk (sanitizeList (String.mk (sanitizeList s.data)).data) = _
  exact congrArg String.mk (sanitizeList_idem h)

theorem sanitize_idem_witness :
    pyStrip (sanitize_text "abc").data = (sanitize_text "abc").data ∧
    sanitize_text (sanitize_text "abc") = sanitize_text "abc" :=
  ⟨by decide, sanitize_idem_of_stripped "abc" (by decide)⟩

/-- C6: with the default cap of 3, the redirect guard raises RedirectLoop
exactly when the location matches the premium pattern at the initial check and
after each of the 3 re-navigations; if the location stops matching at any
earlier check it returns without raising, and it never re-navigates more than
3 times. -/
theorem premium_redirect_cap :
    ∀ urls : Nat → String,
      (check_for_premium_redirect urls 3 = .error .redirectLoop ↔
        (isPremium (urls 0) = true ∧ isPremium (urls 1) = true ∧
         isPremium (urls 2) = true ∧ isPremium (urls 3) = true)) ∧
      premiumCheckLoop urls 0 3 ≤ 3 := by
  intro urls
  constructor
  · by_cases h0 : isPremium (urls 0) <;> by_cases h1 : isPremium (urls 1) <;>
      by_cases h2 : isPremium (urls 2) <;> by_cases h3 : isPremium (urls 3) <;>
      simp [check_for_premium_redirect, premiumCheckLoop, h0, h1, h2, h3]
  · by_cases h0 : isPremium (urls 0) <;> by_cases h1 : isPremium (urls 1) <;>
      by_cases h2 : isPremium (urls 2) <;>
      simp [premiumCheckLoop, h0, h1, h2]

/-- C7: a generated artifact passes validation iff its size is at most
2 MiB and its lower-cased extension is one of .pdf/.doc/.docx; a size of
2 MiB + 1 raises, a foreign extension raises for every size, and after a
successful generation the validation outcome does not depend on any remaining
generation budget (a violation is never retried). -/
theorem upload_validation_spec :
    (∀ (size : Nat) (ext : String),
      validate_artifact size ext = .ok () ↔
        (size ≤ max_file_size ∧ allowed_extensions.contains (lowerString ext) = true)) ∧
    (validate_artifact (2 * 1024 * 1024 + 1) ".pdf" =
      .error (.valueError "Resume file size exceeds the maximum limit of 2 MB.")) ∧
    (∀ size : Nat, ∃ msg, validate_artifact size ".txt" = .error (.valueError msg)) ∧
    (∀ (size : Nat) (ext : String) (rest1 rest2 : List GenOutcome),
      create_and_upload_resume (.generated size ext :: rest1) =
      create_and_upload_resume (.generated size ext :: rest2)) := by
  refine ⟨?_, ?_, ?_, ?_⟩
  · intro size ext
    unfold validate_artifact
    by_cases hs : size > max_file_size
    · simp [hs]
    · by_cases he : allowed_extensions.contains (lowerString ext) <;>
        simp [hs, he] <;> try omega
  · rfl
  · intro size
    have he : allowed_extensions.contains (lowerString ".txt") = false := by decide
    unfold validate_artifact
    by_cases hs : size > max_file_size <;> simp [hs, he] <;> exact ⟨_, rfl⟩
  · intro size ext rest1 rest2
    rfl

/-- C10: retrieving the recruiter link never raises; when the hiring-team
section cannot be located or holds no recruiter anchor the result is the empty
string, and otherwise it is the first recruiter href. -/
theorem recruiter_never_raises :
    ∀ page : RecruiterPage,
      (page.hiringSection = none → get_job_recruiter page = "") ∧
      (page.hiringSection = some [] → get_job_recruiter page = "") ∧
      (∀ l rest, page.hiringSection = some (l :: rest) → get_job_recruiter page = l) := by
  intro page
  refine ⟨?_, ?_, ?_⟩
  · intro h; simp [get_job_recruiter, find_recruiter_elements, h]
  · intro h; simp [get_job_recruiter, find_recruiter_elements, h]
  · intro l rest h; simp [get_job_recruiter, find_recruiter_elements, h]

theorem recruiter_never_raises_witness :
    (RecruiterPage.mk none).hiringSection = none ∧ get_job_recruiter ⟨none⟩ = "" :=
  ⟨rfl, (recruiter_never_raises ⟨none⟩).1 rfl⟩

theorem pyRandomChoice_mem (idx : Nat) (options : List String) (h : options ≠ []) :
    resultInOptions (pyRandomChoice idx options) options := by
  cases options with
  | nil => exact absurd rfl h
  | cons x xs =>
    simp only [pyRandomChoice, resultInOptions]
    exact List.get_mem _ _ _

/-- C9: for every non-empty options list the chosen answer is an element of the
list, whatever the LLM endpoint responds, and no exception is raised. -/
theorem options_answer_mem (env : LLMEnv) (question_text : String)
    (options : List String) (h : options ≠ []) :
    resultInOptions (answer_question_from_options env question_text options) options := by
  unfold answer_question_from_options
  split
  · split
    · exact pyRandomChoice_mem _ _ h
    · rcases hr : env.response with e | ans
      · simp only [hr]
        exact pyRandomChoice_mem _ _ h
      · simp only [hr]
        split
        · rename_i hcont
          simpa [resultInOptions] using hcont
        · exact pyRandomChoice_mem _ _ h
  · exact pyRandomChoice_mem _ _ h

theorem options_answer_mem_witness :
    (["yes", "no"] ≠ ([] : List String)) ∧
    resultInOptions
      (answer_question_from_options ⟨"gemini", "", .error .indexError, 0⟩ "Q" ["yes", "no"])
      ["yes", "no"] :=
  ⟨by decide, options_answer_mem ⟨"gemini", "", .error .indexError, 0⟩ "Q" ["yes", "no"] (by decide)⟩

/-- C8: when no strategy matches, the locator runs exactly 2 rounds of the full
strategy list with exactly one page reload between them and only then raises
NotFound; when a strategy matches in the first round, no reload occurs. -/
theorem find_button_reload_spec (env : FindButtonEnv)
    (hnp : ∀ i k, isPremium (env.checkUrls i k) = false) :
    (tryMethodsInRound env 0 = none → tryMethodsInRound env 1 = none →
      find_easy_apply_button env = ⟨.error .noEasyApplyButton, 1, 2⟩) ∧
    (∀ b, tryMethodsInRound env 0 = some b →
      find_easy_apply_button env = ⟨.ok b, 0, 1⟩) := by
  have hchk : ∀ i, check_for_premium_redirect (env.checkUrls i) 3 = .ok 0 := by
    intro i
    have e3 : premiumCheckLoop (env.checkUrls i) 0 3 = 0 := by
      have estep : premiumCheckLoop (env.checkUrls i) 0 3 =
          if isPremium (env.checkUrls i 0) then premiumCheckLoop (env.checkUrls i) 1 2
          else 0 := rfl
      rw [estep, hnp i 0]
      simp
    simp only [check_for_premium_redirect]
    rw [e3, hnp i 0]
    simp
  constructor
  · intro h0 h1
    simp [find_easy_apply_button, findButtonLoop, hchk, h0, h1]
  · intro b hb
    simp [find_easy_apply_button, findButtonLoop, hchk, hb]

theorem find_button_reload_witness :
    find_easy_apply_button noFindEnv = ⟨.error .noEasyApplyButton, 1, 2⟩ :=
  (find_button_reload_spec noFindEnv (fun _ _ => rfl)).1 rfl rfl

/-- C1 counterexample: when no apply trigger is found the attempt does not end
in a distinct Skipped outcome; it raises the wrapped failure (the Failed path)
after running the rollback. -/
theorem apply_no_trigger_raises :
    apply_to_job noTriggerEnv = some (.error (.wrappedApplyFailure .noEasyApplyButton), 1) := rfl

/-- C1 (amended): every terminating attempt ends in exactly one of two terminal
shapes: Applied (normal return, no rollback) or Failed (a raised exception,
with at most one rollback invocation); no partial state is returned. -/
theorem apply_outcome_dichotomy :
    ∀ env r, apply_to_job env = some r → terminal_outcome r := by
  intro env r h
  unfold apply_to_job job_apply at h
  split at h
  · cases h
    exact Or.inr ⟨⟨_, rfl⟩, by omega⟩
  · split at h
    · cases h
      exact Or.inr ⟨⟨_, rfl⟩, by omega⟩
    · split at h
      · exact absurd h (by simp)
      · cases h
        exact Or.inl ⟨rfl, rfl⟩
      · cases h
        exact Or.inr ⟨⟨_, rfl⟩, by omega⟩

theorem apply_outcome_dichotomy_witness :
    apply_to_job okEnv = some (.ok (), 0) ∧ terminal_outcome (.ok (), 0) :=
  ⟨rfl, apply_outcome_dichotomy okEnv (.ok (), 0) rfl⟩

/-- C2 counterexample: a redirect loop raised by the first redirect check of
job_apply propagates to the caller without any discard-and-rollback
invocation. -/
theorem first_redirect_error_skips_rollback :
    job_apply premiumStartEnv = some (.error .redirectLoop, 0) := rfl

/-- C2 (amended): every error raised inside the guarded block of job_apply
triggers exactly one discard-and-rollback invocation before the wrapped error
is re-raised; the rollback swallows its own failures (the outcome never
depends on the rollback environment), and a failure while a step's form
elements are processed is swallowed by fill_up (the form outcome never depends
on it); but errors from the initial navigation or the first redirect check
propagate with no rollback. -/
theorem rollback_on_guarded_error :
    (∀ (env : JobApplyEnv) (e : AppErr) (n : Nat), env.navigate = .ok () →
      (∃ k, check_for_premium_redirect (env.redirectUrls 0) 3 = .ok k) →
      job_apply env = some (.error e, n) → n = 1) ∧
    (∀ (env : JobApplyEnv) (d : DiscardEnv),
      job_apply { env with discardEnv := d } = job_apply env) ∧
    (∀ (st : StepEnv) (f : Except AppErr Unit) (rest : List StepEnv),
      fill_application_form ({ st with fillRaw := f } :: rest) =
      fill_application_form (st :: rest)) := by
  refine ⟨?_, ?_, ?_⟩
  · intro env e n hnav hex h
    obtain ⟨k, hk⟩ := hex
    rcases ha : job_apply_attempt env with _ | r
    · simp [job_apply, hnav, hk, ha] at h
    · rcases r with e' | u
      · simp [job_apply, hnav, hk, ha] at h
        obtain ⟨-, hn⟩ := h
        omega
      · cases u
        simp [job_apply, hnav, hk, ha] at h
  · intro env d
    rfl
  · intro st f rest
    rfl

theorem rollback_on_guarded_error_witness :
    (1 : Nat) = 1 ∧
    job_apply { okEnv with discardEnv := ⟨.error (.timeout "modal"), []⟩ } = job_apply okEnv :=
  ⟨rollback_on_guarded_error.1 noTriggerEnv (.wrappedApplyFailure .noEasyApplyButton) 1
      rfl ⟨0, rfl⟩ rfl,
    rollback_on_guarded_error.2.1 okEnv ⟨.error (.timeout "modal"), []⟩⟩
